import Mathlib

/-!
Verification of the slideshow core of `photoloop.py`.

We shallowly embed the `SlideshowWidget` controller (catalog, current index,
dwell timer) and the `VideoThread` decode loop.  Filesystem and codec
behaviour is abstracted into an `Env` of oracles; GUI side effects are
recorded as an `Event` trace.  `show_current_media` can recurse through
`next_media` (when a video file fails to open), so it is defined with fuel.
-/

/-- The `media_type` tag stored in `media_files` entries. -/
inductive MediaType
  | image
  | video
deriving DecidableEq, Repr

/-- Environment oracles: what the filesystem and the codecs answer.
`file_exists` models `os.path.exists`; `cap_opens` models
`cv2.VideoCapture(path).isOpened()`; `fps` and `frame_count` model
`cap.get(CAP_PROP_FPS)` and `int(cap.get(CAP_PROP_FRAME_COUNT))`;
`probe_raises` models an exception inside the duration-probing `try` block of
`show_current_media`; `image_loads` models `not QImage(path).isNull()`. -/
structure Env where
  file_exists : String → Bool
  cap_opens : String → Bool
  fps : String → Rat
  frame_count : String → Int
  probe_raises : String → Bool
  image_loads : String → Bool

/-- The fields of `SlideshowWidget` that the slideshow state machine reads and
writes.  `timer_active` is `self.timer.isActive()`, `timer_interval` the
timer's interval in ms, `video_running` is `self.video_thread.isRunning()`,
`temp_label_defined` is `hasattr(self, 'temp_image_label')` and
`temp_label_has_pixmap` whether that label carries a non-null pixmap. -/
structure SlideState where
  media_files : List (String × MediaType)
  current_media_index : Nat
  timer_active : Bool
  timer_interval : Int
  display_duration : Int
  transition_style : String
  image_label_visible : Bool
  image_label_has_pixmap : Bool
  video_label_visible : Bool
  video_running : Bool
  temp_label_defined : Bool
  temp_label_has_pixmap : Bool
deriving DecidableEq, Repr

/-- Observable side effects of the controller, in program order. -/
inductive Event
  | displayImage (path : String)
  | playVideo (path : String)
  | crossfadeStarted (path : String)
  | kenBurnsStarted (path : String) (durationMs : Int)
  | applyTransitionAnim (style : String)
  | timerSetInterval (ms : Int)
  | timerStart (ms : Int)
  | timerStop
  | videoStop
deriving DecidableEq, Repr

/-- Python's `int()` applied to a rational: truncation toward zero. -/
def pyTrunc (q : Rat) : Int :=
  if 0 ≤ q then ⌊q⌋ else ⌈q⌉

/-- Rational division, written via `Rat.divInt` so that it evaluates by
kernel reduction; `ratDiv_eq` shows it is ordinary division. -/
def ratDiv (a b : Rat) : Rat := Rat.divInt (a.num * b.den) (a.den * b.num)

/-- Multiplication of a rational by an integer, written via `Rat.divInt` so
that it evaluates by kernel reduction; `ratMulInt_eq` shows it is ordinary
multiplication. -/
def ratMulInt (a : Rat) (k : Int) : Rat := Rat.divInt (a.num * k) a.den

theorem ratDiv_eq (a b : Rat) : ratDiv a b = a / b := by
  unfold ratDiv
  rw [Rat.divInt_eq_div]
  push_cast
  rw [mul_div_mul_comm, Rat.num_div_den, div_eq_mul_inv a b, Rat.inv_def',
    Rat.divInt_eq_div]
  push_cast
  ring

theorem ratMulInt_eq (a : Rat) (k : Int) : ratMulInt a k = a * k := by
  unfold ratMulInt
  rw [Rat.divInt_eq_div]
  push_cast
  rw [mul_comm (a.num : Rat) (k : Rat), mul_div_assoc, Rat.num_div_den]
  ring

/-- The video-branch timer computation of `show_current_media` (after a
successful `VideoCapture` open): `duration = total_frames / fps if fps > 0
else 0`; interval `600000` when `duration > 600`, else
`int(duration * 1000) + 500`. -/
def video_timer_interval (fps : Rat) (total_frames : Int) : Int :=
  let duration : Rat := if 0 < fps then ratDiv (total_frames : Rat) fps else 0
  if 600 < duration then 600000 else pyTrunc (ratMulInt duration 1000) + 500

/-- `perform_ken_burns_transition`'s animation duration:
`min(self.display_duration - 500, 4000)`. -/
def ken_burns_duration (display_duration : Int) : Int :=
  min (display_duration - 500) 4000

/-- `perform_crossfade_transition` up to its return value: `False` when the
image label holds no (non-null) pixmap or the new image fails to load,
`True` when the overlay animation was started. -/
def perform_crossfade_transition (env : Env) (s : SlideState) (path : String) : Bool :=
  if s.image_label_has_pixmap = false then false
  else if env.image_loads path = false then false
  else true

/-- `perform_ken_burns_transition`: `none` models returning `False` (new image
failed to load); on success the image label is hidden and the animation is
started with duration `ken_burns_duration`. -/
def perform_ken_burns_transition (env : Env) (s : SlideState) (path : String) :
    Option (SlideState × List Event) :=
  if env.image_loads path = false then none
  else some ({ s with image_label_visible := false },
    [Event.kenBurnsStarted path (ken_burns_duration s.display_duration)])

/-- `display_image`: hides the video label, shows the image label, stops a
running video thread, then loads the image; a null image returns with the
old pixmap untouched. -/
def display_image (env : Env) (s : SlideState) (path : String) : SlideState × List Event :=
  let s1 := { s with video_label_visible := false, image_label_visible := true }
  let stopEvs := if s1.video_running = true then [Event.videoStop] else []
  let s2 := { s1 with video_running := false }
  if env.image_loads path = false then (s2, stopEvs)
  else ({ s2 with image_label_has_pixmap := true }, stopEvs ++ [Event.displayImage path])

/-- `play_video`: hides the image label, shows the video label, stops a
running video thread, then starts the thread on the new path. -/
def play_video (s : SlideState) (path : String) : SlideState × List Event :=
  let s1 := { s with image_label_visible := false, video_label_visible := true }
  let stopEvs := if s1.video_running = true then [Event.videoStop] else []
  ({ s1 with video_running := true }, stopEvs ++ [Event.playVideo path])

/-- `handle_video_completed`: starts the dwell timer with
`self.display_duration` only when it is not already active. -/
def handle_video_completed (s : SlideState) : SlideState × List Event :=
  if s.timer_active = true then (s, [])
  else ({ s with timer_active := true, timer_interval := s.display_duration },
    [Event.timerStart s.display_duration])

/-- `stop_slideshow`: stops the dwell timer and the video thread. -/
def stop_slideshow (s : SlideState) : SlideState × List Event :=
  ({ s with timer_active := false, video_running := false },
    [Event.timerStop, Event.videoStop])

/-- `apply_transition(old_label)`: when the old label carries no pixmap it is
merely deleted (no animation); otherwise the fade/slide/zoom animation runs. -/
def apply_transition (s : SlideState) : SlideState × List Event :=
  if s.temp_label_has_pixmap = false then (s, [])
  else (s, [Event.applyTransitionAnim s.transition_style])

/-- The tail of `show_current_media`: `apply_transition` runs only when
`old_image_label` was non-`None` (the temp label existed at entry) and the
style is neither `none`, `crossfade` nor `ken burns`. -/
def maybe_apply_transition (hadTemp : Bool) (s : SlideState) (evs : List Event) :
    SlideState × List Event :=
  if hadTemp = true ∧ s.transition_style ≠ "none" ∧
      s.transition_style ≠ "crossfade" ∧ s.transition_style ≠ "ken burns" then
    let r := apply_transition s
    (r.1, evs ++ r.2)
  else (s, evs)

/-- The body of `show_current_media` from the crossfade/Ken-Burns special
cases on, for an item whose existence check already passed.  `nextMedia` is
the continuation used when a video file fails to open
(`self.next_media(); return`). -/
def show_existing_media (env : Env) (nextMedia : SlideState → SlideState × List Event)
    (s : SlideState) (path : String) (ty : MediaType) : SlideState × List Event :=
  let special : Option (SlideState × List Event) :=
    if ty = MediaType.image then
      if s.transition_style = "crossfade" ∧ s.image_label_visible = true then
        if perform_crossfade_transition env s path = true then
          some ({ s with timer_interval := s.display_duration },
            [Event.crossfadeStarted path, Event.timerSetInterval s.display_duration])
        else none
      else if s.transition_style = "ken burns" then
        match perform_ken_burns_transition env s path with
        | some (s1, evs) =>
          some ({ s1 with timer_interval := s1.display_duration },
            evs ++ [Event.timerSetInterval s1.display_duration])
        | none => none
      else none
    else none
  match special with
  | some r => r
  | none =>
    let hadTemp := s.temp_label_defined
    let s := { s with temp_label_defined := true }
    match ty with
    | MediaType.image =>
      let r1 := display_image env s path
      let s2 := { r1.1 with timer_interval := r1.1.display_duration }
      maybe_apply_transition hadTemp s2
        (r1.2 ++ [Event.timerSetInterval r1.1.display_duration])
    | MediaType.video =>
      let r1 := play_video s path
      if env.probe_raises path = true then
        let s2 := { r1.1 with timer_interval := 600000 }
        maybe_apply_transition hadTemp s2 (r1.2 ++ [Event.timerSetInterval 600000])
      else if env.cap_opens path = false then
        let r2 := nextMedia r1.1
        (r2.1, r1.2 ++ r2.2)
      else
        let interval := video_timer_interval (env.fps path) (env.frame_count path)
        let s2 := { r1.1 with timer_interval := interval }
        maybe_apply_transition hadTemp s2 (r1.2 ++ [Event.timerSetInterval interval])

/-- The body of `next_media` over an explicit recursive call `rec` into
`show_current_media`: on a non-empty catalog, stop a running video, advance
the index modulo the catalog length and show the selected item. -/
def next_media_cont (rec : SlideState → SlideState × List Event) (s0 : SlideState) :
    SlideState × List Event :=
  if s0.media_files = [] then (s0, [])
  else
    let evs := if s0.video_running = true then [Event.videoStop] else []
    let s1 := { s0 with
      video_running := false,
      current_media_index := (s0.current_media_index + 1) % s0.media_files.length }
    let r := rec s1
    (r.1, evs ++ r.2)

/-- `show_current_media`, with fuel bounding the recursion through
`next_media` (reached when a video fails to open, and from the outer
`except` handler on an out-of-range index).  A missing file is popped from
the catalog; if the catalog empties the method returns at once, otherwise
the index is reduced modulo the new length and the replacement item is shown
without a further existence check. -/
def show_current_media (env : Env) : Nat → SlideState → SlideState × List Event
  | 0, s => (s, [])
  | fuel + 1, s =>
    let nextMedia : SlideState → SlideState × List Event :=
      next_media_cont (show_current_media env fuel)
    if s.media_files = [] then (s, [])
    else if hidx : s.current_media_index < s.media_files.length then
      let item := s.media_files.get ⟨s.current_media_index, hidx⟩
      if env.file_exists item.1 = true then
        show_existing_media env nextMedia s item.1 item.2
      else
        let files1 := s.media_files.eraseIdx s.current_media_index
        if hb : files1.length = 0 then ({ s with media_files := files1 }, [])
        else
          let idx1 := s.current_media_index % files1.length
          let item1 := files1.get ⟨idx1, Nat.mod_lt _ (Nat.pos_of_ne_zero hb)⟩
          show_existing_media env nextMedia
            { s with media_files := files1, current_media_index := idx1 } item1.1 item1.2
    else
      nextMedia s

/-- `next_media` as invoked by the dwell timer. -/
def next_media (env : Env) (fuel : Nat) (s : SlideState) : SlideState × List Event :=
  next_media_cont (show_current_media env fuel) s

/-- `start_slideshow`: on a non-empty catalog, reset the index to 0, show the
current item and start the dwell timer with `self.display_duration`. -/
def start_slideshow (env : Env) (fuel : Nat) (s : SlideState) : SlideState × List Event :=
  if s.media_files = [] then (s, [])
  else
    let r := show_current_media env fuel { s with current_media_index := 0 }
    ({ r.1 with timer_active := true, timer_interval := r.1.display_duration },
      r.2 ++ [Event.timerStart r.1.display_duration])

/-- `add_media`: append `(path, type)` unless the path is already known; when
this is the first item, or the timer is inactive, start the slideshow. -/
def add_media (env : Env) (fuel : Nat) (s : SlideState) (path : String) (ty : MediaType) :
    SlideState × List Event :=
  if path ∈ s.media_files.map Prod.fst then (s, [])
  else
    let s1 := { s with media_files := s.media_files ++ [(path, ty)] }
    if s1.media_files.length = 1 then start_slideshow env fuel s1
    else if s1.timer_active = false then start_slideshow env fuel s1
    else (s1, [])

/-- A sequence of `add_media` calls, in order. -/
def add_media_seq (env : Env) (fuel : Nat) : List (String × MediaType) → SlideState → SlideState
  | [], s => s
  | (p, t) :: rest, s => add_media_seq env fuel rest (add_media env fuel s p t).1

/-- Iterated `next_media` (the dwell timer firing k times). -/
def advance_times (env : Env) (fuel : Nat) : Nat → SlideState → SlideState
  | 0, s => s
  | k + 1, s => advance_times env fuel k (next_media env fuel s).1

/-- `VideoThread.max_duration`: 600 seconds. -/
def VideoThread_max_duration : Rat := 600

/-- One iteration of the `while self.running` loop in `VideoThread.run`:
whether `cap.read()` succeeded, whether the frame-processing `try` body ran
without exception, whether the produced `QImage` is non-null, and the value
`time.time() - start_time` observed right after the frame is emitted. -/
structure FrameStep where
  readOk : Bool
  convertOk : Bool
  imageOk : Bool
  elapsed : Rat
deriving DecidableEq, Repr

/-- The decode loop of `VideoThread.run`, returning the elapsed-time stamps
of the emitted frames.  A failed read ends the loop; a per-frame exception
skips the frame (and the duration check); otherwise the frame is emitted when
non-null and then the loop stops when `video_duration > max_duration` and
`elapsed_time >= max_duration`. -/
def videoRunLoop (videoDuration maxDur : Rat) : List FrameStep → List Rat
  | [] => []
  | st :: rest =>
    if st.readOk = false then []
    else if st.convertOk = false then videoRunLoop videoDuration maxDur rest
    else
      let emitted := if st.imageOk = true then [st.elapsed] else []
      if maxDur < videoDuration ∧ maxDur ≤ st.elapsed then emitted
      else emitted ++ videoRunLoop videoDuration maxDur rest

/-- The emissions of an uncapped run: every readable frame up to the first
failed read, kept when its conversion succeeded and the image is non-null. -/
def naturalEmissions (sched : List FrameStep) : List Rat :=
  (sched.takeWhile (fun st => st.readOk)).filterMap
    (fun st => if st.convertOk = true ∧ st.imageOk = true then some st.elapsed else none)

/-- The index half of the spec's documented invariant. -/
abbrev index_invariant (s : SlideState) : Prop :=
  s.media_files ≠ [] → s.current_media_index < s.media_files.length

/-- The spec's full documented invariant: index in range whenever the catalog
is non-empty, and the dwell timer inactive exactly when the catalog is
empty. -/
abbrev slideshow_invariant (s : SlideState) : Prop :=
  index_invariant s ∧ (s.timer_active = false ↔ s.media_files = [])

/-- An item whose display never re-enters `next_media`: its file exists and,
for a video, duration probing either raises (interval fallback) or the
capture opens. -/
abbrev benign_item (env : Env) (it : String × MediaType) : Prop :=
  env.file_exists it.1 = true ∧
    (it.2 = MediaType.video →
      (env.probe_raises it.1 = true ∨ env.cap_opens it.1 = true))

/-- Every item of the list is benign for `env`. -/
abbrev benign_catalog (env : Env) (files : List (String × MediaType)) : Prop :=
  ∀ it ∈ files, benign_item env it

/-- An environment in which every path whatsoever is benign. -/
abbrev benign_env (env : Env) : Prop :=
  ∀ p : String, benign_item env (p, MediaType.image) ∧ benign_item env (p, MediaType.video)

/-- Events that start a visual animation. -/
def is_animation_event : Event → Bool
  | Event.crossfadeStarted _ => true
  | Event.kenBurnsStarted _ _ => true
  | Event.applyTransitionAnim _ => true
  | _ => false

/-- The duration probed by `show_current_media`'s video branch:
`total_frames / fps if fps > 0 else 0`. -/
def probed_duration (env : Env) (p : String) : Rat :=
  if 0 < env.fps p then ratDiv ((env.frame_count p : Int) : Rat) (env.fps p) else 0

/-- Modelled from the spec: the catalog that a sequence of
`onMediaDiscovered(path, kind)` calls should produce — idempotent on known
paths, otherwise appending at the end, insertion order preserved. -/
def catalog_after_adds (cat : List (String × MediaType)) :
    List (String × MediaType) → List (String × MediaType)
  | [] => cat
  | (p, t) :: rest =>
    catalog_after_adds (if p ∈ cat.map Prod.fst then cat else cat ++ [(p, t)]) rest

@[simp] theorem display_image_files (env : Env) (s : SlideState) (path : String) :
    (display_image env s path).1.media_files = s.media_files := by
  unfold display_image
  split <;> rfl

@[simp] theorem display_image_index (env : Env) (s : SlideState) (path : String) :
    (display_image env s path).1.current_media_index = s.current_media_index := by
  unfold display_image
  split <;> rfl

@[simp] theorem display_image_timer (env : Env) (s : SlideState) (path : String) :
    (display_image env s path).1.timer_active = s.timer_active := by
  unfold display_image
  split <;> rfl

@[simp] theorem display_image_dd (env : Env) (s : SlideState) (path : String) :
    (display_image env s path).1.display_duration = s.display_duration := by
  unfold display_image
  split <;> rfl

@[simp] theorem play_video_files (s : SlideState) (path : String) :
    (play_video s path).1.media_files = s.media_files := rfl

@[simp] theorem play_video_index (s : SlideState) (path : String) :
    (play_video s path).1.current_media_index = s.current_media_index := rfl

@[simp] theorem play_video_timer (s : SlideState) (path : String) :
    (play_video s path).1.timer_active = s.timer_active := rfl

@[simp] theorem apply_transition_state (s : SlideState) : (apply_transition s).1 = s := by
  unfold apply_transition
  split <;> rfl

@[simp] theorem maybe_apply_transition_state (h : Bool) (s : SlideState) (evs : List Event) :
    (maybe_apply_transition h s evs).1 = s := by
  unfold maybe_apply_transition
  split
  · exact apply_transition_state s
  · rfl

/-- An item that satisfies `benign_item`-style non-recursion never invokes the
`next_media` continuation, and `show_existing_media` leaves the catalog, the
index and the timer's activity untouched. -/
theorem show_existing_media_frame (env : Env) (k : SlideState → SlideState × List Event)
    (s : SlideState) (path : String) (ty : MediaType)
    (hnorec : ty = MediaType.video →
      env.probe_raises path = true ∨ env.cap_opens path = true) :
    (show_existing_media env k s path ty).1.media_files = s.media_files ∧
    (show_existing_media env k s path ty).1.current_media_index = s.current_media_index ∧
    (show_existing_media env k s path ty).1.timer_active = s.timer_active := by
  cases ty with
  | image =>
    by_cases h1 : s.transition_style = "crossfade" ∧ s.image_label_visible = true
    · by_cases h2 : perform_crossfade_transition env s path = true
      · simp [show_existing_media, h1, h2]
      · simp [show_existing_media, h1, h2]
    · by_cases h3 : s.transition_style = "ken burns"
      · by_cases h4 : env.image_loads path = false
        · simp [show_existing_media, perform_ken_burns_transition, h1, h3, h4]
        · simp [show_existing_media, perform_ken_burns_transition, h1, h3, h4]
      · simp [show_existing_media, h1, h3]
  | video =>
    by_cases h5 : env.probe_raises path = true
    · simp [show_existing_media, h5]
    · have h6 : env.cap_opens path = true := by
        rcases hnorec rfl with h | h
        · exact absurd h h5
        · exact h
      simp [show_existing_media, h5, h6]

theorem index_invariant_of_eq {s t : SlideState} (hf : t.media_files = s.media_files)
    (hi : t.current_media_index = s.current_media_index) (h : index_invariant s) :
    index_invariant t := by
  intro hne
  rw [hf, hi]
  exact h (by rwa [hf] at hne)

theorem show_existing_media_index_invariant (env : Env)
    (k : SlideState → SlideState × List Event) (s : SlideState) (path : String)
    (ty : MediaType) (hinv : index_invariant s)
    (hk : ∀ s', s'.media_files = s.media_files →
      s'.current_media_index = s.current_media_index → index_invariant (k s').1) :
    index_invariant (show_existing_media env k s path ty).1 := by
  cases ty with
  | image =>
    have hf := show_existing_media_frame env k s path MediaType.image (fun h => nomatch h)
    exact index_invariant_of_eq hf.1 hf.2.1 hinv
  | video =>
    by_cases h5 : env.probe_raises path = true
    · have hf := show_existing_media_frame env k s path MediaType.video (fun _ => Or.inl h5)
      exact index_invariant_of_eq hf.1 hf.2.1 hinv
    · by_cases h6 : env.cap_opens path = true
      · have hf := show_existing_media_frame env k s path MediaType.video (fun _ => Or.inr h6)
        exact index_invariant_of_eq hf.1 hf.2.1 hinv
      · simp only [show_existing_media, h5, h6]
        simp only [Bool.not_eq_true] at h5 h6
        simp [h5, h6]
        exact hk _ rfl rfl

theorem next_media_cont_index_invariant (rec : SlideState → SlideState × List Event)
    (hrec : ∀ s', index_invariant s' → index_invariant (rec s').1)
    (s : SlideState) (h : index_invariant s) :
    index_invariant (next_media_cont rec s).1 := by
  unfold next_media_cont
  by_cases hemp : s.media_files = []
  · simpa [hemp] using h
  · simp only [hemp, if_neg (fun hc => hemp hc)]
    apply hrec
    intro _
    exact Nat.mod_lt _ (List.length_pos.mpr hemp)

theorem show_current_media_index_invariant (env : Env) :
    ∀ fuel s, index_invariant s → index_invariant (show_current_media env fuel s).1 := by
  intro fuel
  induction fuel with
  | zero => intro s h; exact h
  | succ n ih =>
    intro s h
    by_cases hemp : s.media_files = []
    · simpa [show_current_media, hemp] using h
    · have hidx := h hemp
      simp only [show_current_media]
      rw [if_neg hemp, dif_pos hidx]
      have hk : ∀ s', s'.media_files = s.media_files →
          s'.current_media_index = s.current_media_index →
          index_invariant (next_media_cont (show_current_media env n) s').1 :=
        fun s' hf hi =>
          next_media_cont_index_invariant _ ih s' (index_invariant_of_eq hf hi h)
      by_cases hex : env.file_exists (s.media_files.get ⟨s.current_media_index, hidx⟩).1 = true
      · rw [if_pos hex]
        exact show_existing_media_index_invariant env _ s _ _ h hk
      · rw [if_neg hex]
        by_cases hb : (s.media_files.eraseIdx s.current_media_index).length = 0
        · rw [dif_pos hb]
          intro hne
          exact absurd (List.length_eq_zero.mp hb) hne
        · rw [dif_neg hb]
          apply show_existing_media_index_invariant
          · intro _
            exact Nat.mod_lt _ (Nat.pos_of_ne_zero hb)
          · intro s' hf hi
            apply next_media_cont_index_invariant _ ih
            apply index_invariant_of_eq hf hi
            intro _
            exact Nat.mod_lt _ (Nat.pos_of_ne_zero hb)

/-- Under a catalog of benign items, `show_current_media` mutates neither the
catalog, nor the index, nor the timer's activity. -/
theorem show_current_media_benign (env : Env) :
    ∀ fuel s, benign_catalog env s.media_files → index_invariant s →
      (show_current_media env fuel s).1.media_files = s.media_files ∧
      (show_current_media env fuel s).1.current_media_index = s.current_media_index ∧
      (show_current_media env fuel s).1.timer_active = s.timer_active := by
  intro fuel s hben hinv
  cases fuel with
  | zero => exact ⟨rfl, rfl, rfl⟩
  | succ n =>
    by_cases hemp : s.media_files = []
    · simp [show_current_media, hemp]
    · have hidx := hinv hemp
      have hb := hben _ (List.get_mem s.media_files s.current_media_index hidx)
      simp only [show_current_media]
      rw [if_neg hemp, dif_pos hidx, if_pos hb.1]
      exact show_existing_media_frame env _ s _ _ hb.2

/-- Under a benign catalog, one `next_media` advances the index by one modulo
the catalog length and changes nothing else about catalog or timer. -/
theorem next_media_benign (env : Env) (fuel : Nat) (s : SlideState)
    (hne : s.media_files ≠ []) (hben : benign_catalog env s.media_files) :
    (next_media env fuel s).1.media_files = s.media_files ∧
    (next_media env fuel s).1.current_media_index =
      (s.current_media_index + 1) % s.media_files.length ∧
    (next_media env fuel s).1.timer_active = s.timer_active := by
  unfold next_media next_media_cont
  rw [if_neg hne]
  have h := show_current_media_benign env fuel
    { s with
      video_running := false,
      current_media_index := (s.current_media_index + 1) % s.media_files.length }
    hben (fun _ => Nat.mod_lt _ (List.length_pos.mpr hne))
  exact ⟨h.1, by rw [h.2.1], h.2.2⟩

/-- Under a benign catalog, `start_slideshow` on a non-empty catalog keeps the
catalog, selects index 0 and activates the timer with `display_duration`. -/
theorem start_slideshow_benign (env : Env) (fuel : Nat) (s : SlideState)
    (hne : s.media_files ≠ []) (hben : benign_catalog env s.media_files) :
    (start_slideshow env fuel s).1.media_files = s.media_files ∧
    (start_slideshow env fuel s).1.current_media_index = 0 ∧
    (start_slideshow env fuel s).1.timer_active = true := by
  unfold start_slideshow
  rw [if_neg hne]
  have h := show_current_media_benign env fuel { s with current_media_index := 0 }
    hben (fun _ => List.length_pos.mpr hne)
  exact ⟨h.1, by rw [h.2.1], rfl⟩

theorem start_slideshow_index_invariant (env : Env) (fuel : Nat) (s : SlideState) :
    index_invariant (start_slideshow env fuel s).1 := by
  unfold start_slideshow
  by_cases hne : s.media_files = []
  · rw [if_pos hne]
    intro h
    exact absurd hne h
  · rw [if_neg hne]
    exact show_current_media_index_invariant env fuel { s with current_media_index := 0 }
      (fun _ => List.length_pos.mpr hne)

/-- The catalog effect of one `add_media` call: a known path is a no-op, an
unknown path is appended at the end (benignity keeps the `start_slideshow`
call it may trigger from popping anything). -/
theorem add_media_catalog (env : Env) (fuel : Nat) (s : SlideState) (p : String)
    (t : MediaType) (hinv : index_invariant s)
    (hben : benign_catalog env (s.media_files ++ [(p, t)])) :
    (p ∈ s.media_files.map Prod.fst → (add_media env fuel s p t).1 = s) ∧
    (p ∉ s.media_files.map Prod.fst →
      (add_media env fuel s p t).1.media_files = s.media_files ++ [(p, t)]) := by
  constructor
  · intro hmem
    unfold add_media
    rw [if_pos hmem]
  · intro hmem
    unfold add_media
    rw [if_neg hmem]
    have hne : s.media_files ++ [(p, t)] ≠ [] := by simp
    by_cases h1 : (s.media_files ++ [(p, t)]).length = 1
    · rw [if_pos h1]
      exact (start_slideshow_benign env fuel _ hne hben).1
    · rw [if_neg h1]
      by_cases h2 : s.timer_active = false
      · rw [if_pos h2]
        exact (start_slideshow_benign env fuel _ hne hben).1
      · rw [if_neg h2]

theorem add_media_index_invariant (env : Env) (fuel : Nat) (s : SlideState) (p : String)
    (t : MediaType) (hinv : index_invariant s) :
    index_invariant (add_media env fuel s p t).1 := by
  unfold add_media
  by_cases hmem : p ∈ s.media_files.map Prod.fst
  · rw [if_pos hmem]
    exact hinv
  · rw [if_neg hmem]
    by_cases h1 : (s.media_files ++ [(p, t)]).length = 1
    · rw [if_pos h1]
      exact start_slideshow_index_invariant env fuel _
    · rw [if_neg h1]
      by_cases h2 : s.timer_active = false
      · rw [if_pos h2]
        exact start_slideshow_index_invariant env fuel _
      · rw [if_neg h2]
        intro _
        by_cases hne : s.media_files = []
        · exfalso
          apply h1
          rw [hne]
          rfl
        · calc s.current_media_index < s.media_files.length := hinv hne
            _ ≤ (s.media_files ++ [(p, t)]).length := by simp

/-- Iterating `next_media` k times under a benign catalog adds k to the index
modulo the catalog length and leaves the catalog alone. -/
theorem advance_times_benign (env : Env) (fuel : Nat) :
    ∀ (k : Nat) (s : SlideState), s.media_files ≠ [] →
      s.current_media_index < s.media_files.length →
      benign_catalog env s.media_files →
      (advance_times env fuel k s).media_files = s.media_files ∧
      (advance_times env fuel k s).current_media_index =
        (s.current_media_index + k) % s.media_files.length := by
  intro k
  induction k with
  | zero =>
    intro s hne hidx _
    exact ⟨rfl, (Nat.mod_eq_of_lt (by simpa using hidx)).symm⟩
  | succ n ih =>
    intro s hne hidx hben
    have h1 := next_media_benign env fuel s hne hben
    have hpos : 0 < s.media_files.length := List.length_pos.mpr hne
    have h2 := ih (next_media env fuel s).1
      (by rw [h1.1]; exact hne)
      (by rw [h1.1, h1.2.1]; exact Nat.mod_lt _ hpos)
      (by rw [h1.1]; exact hben)
    have heq : advance_times env fuel (n + 1) s =
        advance_times env fuel n (next_media env fuel s).1 := rfl
    rw [heq]
    refine ⟨by rw [h2.1, h1.1], ?_⟩
    rw [h2.2, h1.1, h1.2.1, Nat.mod_add_mod]
    congr 1
    omega

/-- The catalog after a sequence of `add_media` calls in a benign environment
is exactly the spec's `catalog_after_adds`. -/
theorem add_media_seq_catalog (env : Env) (fuel : Nat) (hben : benign_env env) :
    ∀ (adds : List (String × MediaType)) (s : SlideState), index_invariant s →
      (add_media_seq env fuel adds s).media_files =
        catalog_after_adds s.media_files adds ∧
      index_invariant (add_media_seq env fuel adds s) := by
  intro adds
  induction adds with
  | nil => intro s hinv; exact ⟨rfl, hinv⟩
  | cons a rest ih =>
    intro s hinv
    obtain ⟨p, t⟩ := a
    have hbc : benign_catalog env (s.media_files ++ [(p, t)]) := by
      intro it _
      cases it with
      | mk q ty =>
        cases ty with
        | image => exact (hben q).1
        | video => exact (hben q).2
    have hcat := add_media_catalog env fuel s p t hinv hbc
    have hinv1 := add_media_index_invariant env fuel s p t hinv
    have hrec := ih (add_media env fuel s p t).1 hinv1
    rw [add_media_seq, catalog_after_adds]
    by_cases hmem : p ∈ s.media_files.map Prod.fst
    · rw [if_pos hmem]
      rw [hcat.1 hmem] at hrec ⊢
      exact hrec
    · rw [if_neg hmem]
      rw [hrec.1, hcat.2 hmem]
      exact ⟨rfl, hrec.2⟩

/-- `catalog_after_adds` keeps the path list duplicate-free. -/
theorem catalog_after_adds_nodup :
    ∀ (adds cat : List (String × MediaType)), (cat.map Prod.fst).Nodup →
      ((catalog_after_adds cat adds).map Prod.fst).Nodup := by
  intro adds
  induction adds with
  | nil => intro cat h; exact h
  | cons a rest ih =>
    intro cat h
    obtain ⟨p, t⟩ := a
    rw [catalog_after_adds]
    by_cases hmem : p ∈ cat.map Prod.fst
    · rw [if_pos hmem]
      exact ih cat h
    · rw [if_neg hmem]
      apply ih
      rw [List.map_append, List.nodup_append]
      refine ⟨h, List.nodup_singleton p, ?_⟩
      intro x hx hxp
      simp only [List.map_cons, List.map_nil, List.mem_singleton] at hxp
      subst hxp
      exact hmem hx

/-- When the probed duration exceeds the cap, at most one emitted frame can
carry an elapsed stamp at or past the cap: the loop breaks at the first
post-emit check that sees `elapsed >= max_duration`. -/
theorem videoRunLoop_capped (videoDuration : Rat)
    (hgt : VideoThread_max_duration < videoDuration) :
    ∀ sched : List FrameStep,
      ((videoRunLoop videoDuration VideoThread_max_duration sched).filter
        (fun t => decide (VideoThread_max_duration ≤ t))).length ≤ 1 := by
  intro sched
  induction sched with
  | nil => simp [videoRunLoop]
  | cons st rest ih =>
    rw [videoRunLoop]
    by_cases hr : st.readOk = false
    · simp [hr]
    · rw [if_neg hr]
      by_cases hc : st.convertOk = false
      · rw [if_pos hc]
        exact ih
      · rw [if_neg hc]
        by_cases hstop : VideoThread_max_duration < videoDuration ∧
            VideoThread_max_duration ≤ st.elapsed
        · rw [if_pos hstop]
          refine le_trans (List.length_filter_le _ _) ?_
          by_cases him : st.imageOk = true <;> simp [him]
        · rw [if_neg hstop]
          have help : ¬ VideoThread_max_duration ≤ st.elapsed :=
            fun hle => hstop ⟨hgt, hle⟩
          by_cases him : st.imageOk = true
          · simpa [him, List.filter_cons, help] using ih
          · simpa [him] using ih

/-- When the probed duration is within the cap, the loop decodes to the
natural end of the stream: the cap never fires. -/
theorem videoRunLoop_uncapped (videoDuration : Rat)
    (hle : videoDuration ≤ VideoThread_max_duration) :
    ∀ sched : List FrameStep,
      videoRunLoop videoDuration VideoThread_max_duration sched =
        naturalEmissions sched := by
  intro sched
  induction sched with
  | nil => rfl
  | cons st rest ih =>
    have hnostop : ¬ (VideoThread_max_duration < videoDuration ∧
        VideoThread_max_duration ≤ st.elapsed) :=
      fun h => absurd hle (not_le.mpr h.1)
    rw [videoRunLoop]
    by_cases hr : st.readOk = false
    · simp [naturalEmissions, hr]
    · rw [if_neg hr]
      by_cases hc : st.convertOk = false
      · rw [if_pos hc]
        rw [ih]
        simp only [Bool.not_eq_false] at hr
        simp [naturalEmissions, hr, hc]
      · rw [if_neg hc, if_neg hnostop, ih]
        simp only [Bool.not_eq_false] at hr
        simp only [Bool.not_eq_false] at hc
        by_cases him : st.imageOk = true
        · simp [naturalEmissions, hr, hc, him]
        · simp [naturalEmissions, hr, hc, him]

/-- One step of `show_current_media` when the current item's file exists. -/
theorem show_current_media_exists_step (env : Env) (fuel : Nat) (s : SlideState)
    (hidx : s.current_media_index < s.media_files.length)
    (hex : env.file_exists (s.media_files.get ⟨s.current_media_index, hidx⟩).1 = true) :
    show_current_media env (fuel + 1) s =
      show_existing_media env (next_media_cont (show_current_media env fuel)) s
        (s.media_files.get ⟨s.current_media_index, hidx⟩).1
        (s.media_files.get ⟨s.current_media_index, hidx⟩).2 := by
  have hne : s.media_files ≠ [] := by
    intro h
    rw [h] at hidx
    exact absurd hidx (by simp)
  simp only [show_current_media]
  rw [if_neg hne, dif_pos hidx, if_pos hex]

/-- One step of `show_current_media` when the current item's file is missing
and the pop leaves the catalog non-empty: the replacement at the reduced
index is shown with no further existence check. -/
theorem show_current_media_missing_step (env : Env) (fuel : Nat) (s : SlideState)
    (hidx : s.current_media_index < s.media_files.length)
    (hmiss : env.file_exists (s.media_files.get ⟨s.current_media_index, hidx⟩).1 = false)
    (hb : (s.media_files.eraseIdx s.current_media_index).length ≠ 0) :
    show_current_media env (fuel + 1) s =
      show_existing_media env (next_media_cont (show_current_media env fuel))
        { s with
          media_files := s.media_files.eraseIdx s.current_media_index,
          current_media_index := s.current_media_index %
            (s.media_files.eraseIdx s.current_media_index).length }
        ((s.media_files.eraseIdx s.current_media_index).get
          ⟨s.current_media_index % (s.media_files.eraseIdx s.current_media_index).length,
            Nat.mod_lt _ (Nat.pos_of_ne_zero hb)⟩).1
        ((s.media_files.eraseIdx s.current_media_index).get
          ⟨s.current_media_index % (s.media_files.eraseIdx s.current_media_index).length,
            Nat.mod_lt _ (Nat.pos_of_ne_zero hb)⟩).2 := by
  have hne : s.media_files ≠ [] := by
    intro h
    rw [h] at hidx
    exact absurd hidx (by simp)
  simp only [show_current_media]
  rw [if_neg hne, dif_pos hidx, if_neg (by rw [hmiss]; exact Bool.false_ne_true),
    dif_neg hb]

/-- One step of `show_current_media` when the current item's file is missing
and it was the last item: the method returns at once, with the timer left
untouched. -/
theorem show_current_media_missing_empty_step (env : Env) (fuel : Nat) (s : SlideState)
    (hidx : s.current_media_index < s.media_files.length)
    (hmiss : env.file_exists (s.media_files.get ⟨s.current_media_index, hidx⟩).1 = false)
    (hb : (s.media_files.eraseIdx s.current_media_index).length = 0) :
    show_current_media env (fuel + 1) s =
      ({ s with media_files := s.media_files.eraseIdx s.current_media_index }, []) := by
  have hne : s.media_files ≠ [] := by
    intro h
    rw [h] at hidx
    exact absurd hidx (by simp)
  simp only [show_current_media]
  rw [if_neg hne, dif_pos hidx, if_neg (by rw [hmiss]; exact Bool.false_ne_true),
    dif_pos hb]

/-- On the video path with a capture that opens, the dwell interval written by
`show_existing_media` is exactly the probing computation, with `600000` as
the exception fallback. -/
theorem show_existing_media_video_interval (env : Env)
    (k : SlideState → SlideState × List Event) (s : SlideState) (path : String)
    (hopen : env.cap_opens path = true) :
    (show_existing_media env k s path MediaType.video).1.timer_interval =
      if env.probe_raises path = true then 600000
      else video_timer_interval (env.fps path) (env.frame_count path) := by
  by_cases h5 : env.probe_raises path = true
  · simp [show_existing_media, h5]
  · simp [show_existing_media, h5, hopen]

theorem benign_env_catalog (env : Env) (h : benign_env env)
    (l : List (String × MediaType)) : benign_catalog env l := by
  intro it _
  obtain ⟨q, ty⟩ := it
  cases ty with
  | image => exact (h q).1
  | video => exact (h q).2

/-- The widget state installed by `SlideshowWidget.__init__`: empty catalog,
index 0, timer not started, `display_duration = 5000`, style `fade`. -/
def initState : SlideState :=
  { media_files := [], current_media_index := 0, timer_active := false,
    timer_interval := 0, display_duration := 5000, transition_style := "fade",
    image_label_visible := true, image_label_has_pixmap := false,
    video_label_visible := false, video_running := false,
    temp_label_defined := false, temp_label_has_pixmap := false }

/-- An environment where every file exists, every capture opens (fps 30,
300 frames, so 10 s videos), probing never raises and every image loads. -/
def allGoodEnv : Env :=
  { file_exists := fun _ => true, cap_opens := fun _ => true,
    fps := fun _ => 30, frame_count := fun _ => 300,
    probe_raises := fun _ => false, image_loads := fun _ => true }

/-- An environment where no file exists. -/
def missingEnv : Env := { allGoodEnv with file_exists := fun _ => false }

/-- An environment whose videos probe at 700 s (fps 1, 700 frames). -/
def longVideoEnv : Env :=
  { allGoodEnv with fps := fun _ => 1, frame_count := fun _ => 700 }

/-- A running slideshow holding a single video item. -/
def oneVideoState : SlideState :=
  { initState with media_files := [("v.mp4", MediaType.video)], timer_active := true }

/-- A running slideshow holding a single image item. -/
def oneImageState : SlideState :=
  { initState with media_files := [("gone.jpg", MediaType.image)], timer_active := true }

/-- A running slideshow holding three image items, currently at index 1. -/
def threeImageState : SlideState :=
  { initState with
    media_files := [("a.jpg", MediaType.image), ("b.jpg", MediaType.image),
      ("c.jpg", MediaType.image)],
    current_media_index := 1, timer_active := true }

/-- A running crossfade-style slideshow about to show `new.jpg` with no
current pixmap on the image label. -/
def crossfadeState : SlideState :=
  { initState with
    media_files := [("new.jpg", MediaType.image)],
    transition_style := "crossfade", timer_active := true }

/-- A running Ken-Burns-style slideshow about to show `kb.jpg`. -/
def kenBurnsState : SlideState :=
  { initState with
    media_files := [("kb.jpg", MediaType.image)],
    transition_style := "ken burns", timer_active := true }

/-- An environment where only `v` and `z` exist and no capture opens. -/
def staleEnv : Env :=
  { allGoodEnv with
    file_exists := fun p => p == "v" || p == "z",
    cap_opens := fun _ => false }

/-- A running slideshow over `x` (missing image), `v` (unopenable video),
`y` (missing image) and `z` (good image). -/
def staleState : SlideState :=
  { initState with
    media_files := [("x", MediaType.image), ("v", MediaType.video),
      ("y", MediaType.image), ("z", MediaType.image)],
    timer_active := true }

/-- C1, counterexample: showing a video probed at 700 s (fps 1, 700 frames)
sets the dwell interval to 600000 ms, not to
min(700, 600) * 1000 + 500 = 600500 ms as the claim computes. -/
theorem C1_counterexample :
    probed_duration longVideoEnv "v.mp4" = 700 ∧
    (show_current_media longVideoEnv 1 oneVideoState).1.timer_interval = 600000 ∧
    min (700 : Int) 600 * 1000 + 500 = 600500 ∧
    (600000 : Int) ≠ 600500 := by decide

/-- C1, amended: for a video item whose capture opens, the dwell interval is
600000 ms when probing raises, 600000 ms when the probed duration exceeds
600 s, and int(durationSec * 1000) + 500 ms when it is at most 600 s. -/
theorem C1_video_dwell_interval (env : Env) (fuel : Nat) (s : SlideState) (p : String)
    (hidx : s.current_media_index < s.media_files.length)
    (hitem : s.media_files.get ⟨s.current_media_index, hidx⟩ = (p, MediaType.video))
    (hex : env.file_exists p = true)
    (hopen : env.cap_opens p = true) :
    (show_current_media env (fuel + 1) s).1.timer_interval =
      if env.probe_raises p = true then 600000
      else if 600 < probed_duration env p then 600000
      else pyTrunc (ratMulInt (probed_duration env p) 1000) + 500 := by
  rw [show_current_media_exists_step env fuel s hidx (by rw [hitem]; exact hex), hitem]
  rw [show_existing_media_video_interval env _ s p hopen]
  rfl

/-- C1, witness: fps 30 and 300 frames probe at 10 s, giving 10500 ms. -/
theorem C1_video_dwell_interval_witness :
    (show_current_media allGoodEnv 1 oneVideoState).1.timer_interval = 10500 := by
  rw [C1_video_dwell_interval allGoodEnv 0 oneVideoState "v.mp4" (by decide) (by decide)
    (by decide) (by decide)]
  decide

/-- C2, counterexample: when the only item's file is missing,
`show_current_media` empties the catalog but leaves the dwell timer active,
rather than returning to the Stopped state as the claim requires. -/
theorem C2_counterexample :
    (show_current_media missingEnv 1 oneImageState).1.media_files = [] ∧
    (show_current_media missingEnv 1 oneImageState).1.timer_active = true := by decide

/-- C2, amended: a missing current file is popped without throwing and the
index is reduced modulo the new length (shown without a new existence check,
provided the replacement's own display does not re-enter `next_media`); when
the catalog empties, the method merely returns — the dwell timer is left in
whatever state it was, not stopped. -/
theorem C2_missing_file_skip (env : Env) (fuel : Nat) (s : SlideState)
    (hidx : s.current_media_index < s.media_files.length)
    (hmiss : env.file_exists (s.media_files.get ⟨s.current_media_index, hidx⟩).1 = false)
    (hnorec : ∀ q ∈ s.media_files.eraseIdx s.current_media_index,
      q.2 = MediaType.video → env.probe_raises q.1 = true ∨ env.cap_opens q.1 = true) :
    ((s.media_files.eraseIdx s.current_media_index).length = 0 →
      (show_current_media env (fuel + 1) s).1.media_files = [] ∧
      (show_current_media env (fuel + 1) s).1.timer_active = s.timer_active) ∧
    ((s.media_files.eraseIdx s.current_media_index).length ≠ 0 →
      (show_current_media env (fuel + 1) s).1.media_files =
        s.media_files.eraseIdx s.current_media_index ∧
      (show_current_media env (fuel + 1) s).1.current_media_index =
        s.current_media_index % (s.media_files.eraseIdx s.current_media_index).length ∧
      (show_current_media env (fuel + 1) s).1.timer_active = s.timer_active) := by
  constructor
  · intro hb
    rw [show_current_media_missing_empty_step env fuel s hidx hmiss hb]
    exact ⟨List.length_eq_zero.mp hb, rfl⟩
  · intro hb
    rw [show_current_media_missing_step env fuel s hidx hmiss hb]
    have hmem := List.get_mem (s.media_files.eraseIdx s.current_media_index)
      (s.current_media_index % (s.media_files.eraseIdx s.current_media_index).length)
      (Nat.mod_lt _ (Nat.pos_of_ne_zero hb))
    exact show_existing_media_frame env _ _ _ _ (hnorec _ hmem)

/-- C2, witness: the single missing image is removed and the timer is left
exactly as it was before the call. -/
theorem C2_missing_file_skip_witness :
    (show_current_media missingEnv 1 oneImageState).1.media_files = [] ∧
    (show_current_media missingEnv 1 oneImageState).1.timer_active =
      oneImageState.timer_active :=
  (C2_missing_file_skip missingEnv 0 oneImageState (by decide) (by decide)
    (by decide)).1 (by decide)

/-- C3, counterexample: `stop_slideshow` on a running one-item slideshow
satisfies the claimed invariant beforehand and violates it afterwards (the
catalog stays non-empty while the timer becomes inactive). -/
theorem C3_counterexample :
    slideshow_invariant oneImageState ∧
    ¬ slideshow_invariant (stop_slideshow oneImageState).1 := by decide

/-- C3, amended: every controller operation preserves the index half of the
invariant (index in range whenever the catalog is non-empty); the
running-iff-non-empty half is not an invariant of the code. -/
theorem C3_operations_preserve_index_invariant (env : Env) (fuel : Nat) (s : SlideState)
    (p : String) (t : MediaType) (hinv : index_invariant s) :
    index_invariant (add_media env fuel s p t).1 ∧
    index_invariant (start_slideshow env fuel s).1 ∧
    index_invariant (next_media env fuel s).1 ∧
    index_invariant (show_current_media env fuel s).1 ∧
    index_invariant (stop_slideshow s).1 := by
  refine ⟨add_media_index_invariant env fuel s p t hinv,
    start_slideshow_index_invariant env fuel s, ?_,
    show_current_media_index_invariant env fuel s hinv, hinv⟩
  unfold next_media
  exact next_media_cont_index_invariant _
    (show_current_media_index_invariant env fuel) s hinv

/-- C3, witness: the index invariant at a concrete running three-image state
is preserved by all five operations. -/
theorem C3_operations_preserve_index_invariant_witness :
    index_invariant (add_media allGoodEnv 1 threeImageState "d.jpg" MediaType.image).1 ∧
    index_invariant (start_slideshow allGoodEnv 1 threeImageState).1 ∧
    index_invariant (next_media allGoodEnv 1 threeImageState).1 ∧
    index_invariant (show_current_media allGoodEnv 1 threeImageState).1 ∧
    index_invariant (stop_slideshow threeImageState).1 :=
  C3_operations_preserve_index_invariant allGoodEnv 1 threeImageState "d.jpg"
    MediaType.image (by decide)

/-- C4, confirmed: with every catalog item benign (its display does not
mutate the catalog), one `next_media` sets the index to (i+1) mod n and
advancing exactly n times returns both index and catalog to their original
values. -/
theorem C4_advance_wraps (env : Env) (fuel : Nat) (s : SlideState)
    (hne : s.media_files ≠ [])
    (hidx : s.current_media_index < s.media_files.length)
    (hben : benign_catalog env s.media_files) :
    (next_media env fuel s).1.current_media_index =
      (s.current_media_index + 1) % s.media_files.length ∧
    (next_media env fuel s).1.media_files = s.media_files ∧
    (advance_times env fuel s.media_files.length s).current_media_index =
      s.current_media_index ∧
    (advance_times env fuel s.media_files.length s).media_files = s.media_files := by
  have h1 := next_media_benign env fuel s hne hben
  have h2 := advance_times_benign env fuel s.media_files.length s hne hidx hben
  refine ⟨h1.2.1, h1.1, ?_, h2.1⟩
  rw [h2.2, Nat.add_mod_right]
  exact Nat.mod_eq_of_lt hidx

/-- C4, witness: on a three-image catalog at index 1, one advance reaches
index 2 and three advances return to index 1 with the catalog intact. -/
theorem C4_advance_wraps_witness :
    (next_media allGoodEnv 1 threeImageState).1.current_media_index =
      (threeImageState.current_media_index + 1) % threeImageState.media_files.length ∧
    (next_media allGoodEnv 1 threeImageState).1.media_files =
      threeImageState.media_files ∧
    (advance_times allGoodEnv 1 threeImageState.media_files.length
      threeImageState).current_media_index = threeImageState.current_media_index ∧
    (advance_times allGoodEnv 1 threeImageState.media_files.length
      threeImageState).media_files = threeImageState.media_files :=
  C4_advance_wraps allGoodEnv 1 threeImageState (by decide) (by decide) (by decide)

/-- C5, counterexample: with a probed duration of 700 s, the loop emits the
frame read at elapsed time 601 s — a frame is emitted after the 600 s mark,
because the elapsed-time check runs only after the frame has been emitted. -/
theorem C5_counterexample :
    VideoThread_max_duration < 700 ∧
    videoRunLoop 700 VideoThread_max_duration
      [{ readOk := true, convertOk := true, imageOk := true, elapsed := 601 }] =
      [601] ∧
    VideoThread_max_duration < 601 := by decide

/-- C5, amended: when the probed duration exceeds 600 s the loop stops at the
first post-emit check at or past 600 s — so at most one emitted frame carries
an elapsed stamp at or past the mark; when the probed duration is at most
600 s the loop decodes to the stream's natural end. -/
theorem C5_decode_cap (videoDuration : Rat) (sched : List FrameStep) :
    (VideoThread_max_duration < videoDuration →
      ((videoRunLoop videoDuration VideoThread_max_duration sched).filter
        (fun t => decide (VideoThread_max_duration ≤ t))).length ≤ 1) ∧
    (videoDuration ≤ VideoThread_max_duration →
      videoRunLoop videoDuration VideoThread_max_duration sched =
        naturalEmissions sched) :=
  ⟨fun h => videoRunLoop_capped videoDuration h sched,
   fun h => videoRunLoop_uncapped videoDuration h sched⟩

/-- C5, witness: a 700 s video whose checks land at 10 s, 601 s and 602 s
emits exactly one frame at or past the 600 s mark. -/
theorem C5_decode_cap_witness :
    ((videoRunLoop 700 VideoThread_max_duration
      [{ readOk := true, convertOk := true, imageOk := true, elapsed := 10 },
       { readOk := true, convertOk := true, imageOk := true, elapsed := 601 },
       { readOk := true, convertOk := true, imageOk := true, elapsed := 602 }]).filter
      (fun t => decide (VideoThread_max_duration ≤ t))).length ≤ 1 :=
  (C5_decode_cap 700
    [{ readOk := true, convertOk := true, imageOk := true, elapsed := 10 },
     { readOk := true, convertOk := true, imageOk := true, elapsed := 601 },
     { readOk := true, convertOk := true, imageOk := true, elapsed := 602 }]).1
    (by decide)

/-- C8, confirmed: `handle_video_completed` never changes the catalog or the
index; it leaves the timer active, and it issues a timer start exactly when
the timer was not already running. -/
theorem C8_video_completed_only_ensures_timer (s : SlideState) :
    (handle_video_completed s).1.media_files = s.media_files ∧
    (handle_video_completed s).1.current_media_index = s.current_media_index ∧
    (handle_video_completed s).1.timer_active = true ∧
    ((handle_video_completed s).2 = [Event.timerStart s.display_duration] ↔
      s.timer_active = false) ∧
    ((handle_video_completed s).2 = [] ↔ s.timer_active = true) := by
  unfold handle_video_completed
  by_cases h : s.timer_active = true
  · rw [if_pos h]
    simp [h]
  · rw [if_neg h]
    simp only [Bool.not_eq_true] at h
    simp [h]

@[simp] theorem display_image_style (env : Env) (s : SlideState) (path : String) :
    (display_image env s path).1.transition_style = s.transition_style := by
  unfold display_image
  split <;> rfl

theorem maybe_apply_transition_crossfade (h : Bool) (s : SlideState) (evs : List Event)
    (hst : s.transition_style = "crossfade") :
    maybe_apply_transition h s evs = (s, evs) := by
  unfold maybe_apply_transition
  rw [if_neg]
  intro hc
  exact hc.2.2.1 hst

/-- A crossfade whose precondition fails falls through to the plain
`display_image` path, with no transition animation applied afterwards. -/
theorem show_existing_media_crossfade_skip (env : Env)
    (k : SlideState → SlideState × List Event) (s : SlideState) (p : String)
    (hstyle : s.transition_style = "crossfade")
    (hskip : perform_crossfade_transition env s p = false) :
    show_existing_media env k s p MediaType.image =
      ({ (display_image env { s with temp_label_defined := true } p).1 with
          timer_interval :=
            (display_image env { s with temp_label_defined := true } p).1.display_duration },
        (display_image env { s with temp_label_defined := true } p).2 ++
          [Event.timerSetInterval
            (display_image env { s with temp_label_defined := true } p).1.display_duration]) := by
  unfold show_existing_media
  rw [hstyle]
  by_cases hvis : s.image_label_visible = true
  · simp only [hvis, and_true, if_pos rfl, hskip, Bool.false_eq_true, if_false, if_true]
    exact maybe_apply_transition_crossfade _ _ _ (by simp [hstyle])
  · simp only [hvis, and_false, if_false]
    exact maybe_apply_transition_crossfade _ _ _ (by simp)

/-- A Ken Burns transition on a loadable image takes the special path: the
image label is hidden, the animation starts with `ken_burns_duration` and the
timer interval is set to `display_duration`. -/
theorem show_existing_media_ken_burns (env : Env)
    (k : SlideState → SlideState × List Event) (s : SlideState) (p : String)
    (hstyle : s.transition_style = "ken burns")
    (hload : env.image_loads p = true) :
    show_existing_media env k s p MediaType.image =
      ({ s with image_label_visible := false, timer_interval := s.display_duration },
        [Event.kenBurnsStarted p (ken_burns_duration s.display_duration),
         Event.timerSetInterval s.display_duration]) := by
  unfold show_existing_media perform_ken_burns_transition
  rw [hstyle]
  rw [if_neg
    (fun h => absurd h.1 (by decide) :
      ¬ (("ken burns" : String) = "crossfade" ∧ s.image_label_visible = true))]
  simp [hload]

/-- C6, confirmed: a crossfade attempted with no current pixmap (or an
unloadable new image) makes `perform_crossfade_transition` report failure
rather than raising, and `show_current_media` falls back to a direct cut: no
animation event is emitted, and a loadable new item is displayed directly. -/
theorem C6_crossfade_skipped_direct_cut (env : Env) (fuel : Nat) (s : SlideState)
    (p : String)
    (hidx : s.current_media_index < s.media_files.length)
    (hitem : s.media_files.get ⟨s.current_media_index, hidx⟩ = (p, MediaType.image))
    (hex : env.file_exists p = true)
    (hstyle : s.transition_style = "crossfade")
    (hpre : s.image_label_has_pixmap = false ∨ env.image_loads p = false) :
    perform_crossfade_transition env s p = false ∧
    (show_current_media env (fuel + 1) s).2.filter is_animation_event = [] ∧
    (env.image_loads p = true →
      Event.displayImage p ∈ (show_current_media env (fuel + 1) s).2 ∧
      (show_current_media env (fuel + 1) s).1.image_label_has_pixmap = true) := by
  have hskip : perform_crossfade_transition env s p = false := by
    rcases hpre with h | h <;> simp [perform_crossfade_transition, h]
  rw [show_current_media_exists_step env fuel s hidx (by rw [hitem]; exact hex), hitem]
  rw [show_existing_media_crossfade_skip env _ s p hstyle hskip]
  refine ⟨hskip, ?_, ?_⟩
  · by_cases hload : env.image_loads p = false <;>
      by_cases hvr : s.video_running = true <;>
      simp [display_image, hload, hvr, is_animation_event]
  · intro hload
    by_cases hvr : s.video_running = true <;>
      simp [display_image, hload, hvr]

/-- C6, witness: with crossfade configured and no current pixmap, the single
loadable image is shown by a direct cut with no animation event. -/
theorem C6_crossfade_skipped_direct_cut_witness :
    perform_crossfade_transition allGoodEnv crossfadeState "new.jpg" = false ∧
    (show_current_media allGoodEnv 1 crossfadeState).2.filter is_animation_event = [] ∧
    (allGoodEnv.image_loads "new.jpg" = true →
      Event.displayImage "new.jpg" ∈ (show_current_media allGoodEnv 1 crossfadeState).2 ∧
      (show_current_media allGoodEnv 1 crossfadeState).1.image_label_has_pixmap = true) :=
  C6_crossfade_skipped_direct_cut allGoodEnv 0 crossfadeState "new.jpg" (by decide)
    (by decide) (by decide) (by decide) (Or.inl (by decide))

/-- C7, confirmed: the Ken Burns animation duration is
min(display_duration - 500, 4000) ms — 4000 ms at the default 5000 ms dwell —
and the controller starts the animation with exactly that duration. -/
theorem C7_ken_burns_duration_formula (env : Env) (fuel : Nat) (s : SlideState)
    (p : String)
    (hidx : s.current_media_index < s.media_files.length)
    (hitem : s.media_files.get ⟨s.current_media_index, hidx⟩ = (p, MediaType.image))
    (hex : env.file_exists p = true)
    (hstyle : s.transition_style = "ken burns")
    (hload : env.image_loads p = true) :
    ken_burns_duration s.display_duration = min (s.display_duration - 500) 4000 ∧
    ken_burns_duration 5000 = 4000 ∧
    Event.kenBurnsStarted p (min (s.display_duration - 500) 4000) ∈
      (show_current_media env (fuel + 1) s).2 := by
  refine ⟨rfl, by decide, ?_⟩
  rw [show_current_media_exists_step env fuel s hidx (by rw [hitem]; exact hex), hitem]
  rw [show_existing_media_ken_burns env _ s p hstyle hload]
  simp [ken_burns_duration]

/-- C7, witness: at the default 5000 ms dwell the Ken Burns animation is
started with a 4000 ms duration. -/
theorem C7_ken_burns_duration_formula_witness :
    ken_burns_duration kenBurnsState.display_duration =
      min (kenBurnsState.display_duration - 500) 4000 ∧
    ken_burns_duration 5000 = 4000 ∧
    Event.kenBurnsStarted "kb.jpg" (min (kenBurnsState.display_duration - 500) 4000) ∈
      (show_current_media allGoodEnv 1 kenBurnsState).2 :=
  C7_ken_burns_duration_formula allGoodEnv 0 kenBurnsState "kb.jpg" (by decide) (by decide)
    (by decide) (by decide) (by decide)

/-- C9, confirmed: `add_media` is idempotent on known paths and appends
unknown paths at the end; any sequence of calls yields the spec's
insertion-ordered, duplicate-free catalog (in a benign environment, so that
the `start_slideshow` it may trigger pops nothing). -/
theorem C9_add_media_idempotent (env : Env) (fuel : Nat) (hben : benign_env env) :
    (∀ s p t, p ∈ s.media_files.map Prod.fst → (add_media env fuel s p t).1 = s) ∧
    (∀ s p t, index_invariant s → p ∉ s.media_files.map Prod.fst →
      (add_media env fuel s p t).1.media_files = s.media_files ++ [(p, t)]) ∧
    (∀ adds s, index_invariant s →
      (add_media_seq env fuel adds s).media_files =
        catalog_after_adds s.media_files adds) ∧
    (∀ adds s, index_invariant s → (s.media_files.map Prod.fst).Nodup →
      ((add_media_seq env fuel adds s).media_files.map Prod.fst).Nodup) := by
  refine ⟨?_, ?_, ?_, ?_⟩
  · intro s p t hmem
    unfold add_media
    rw [if_pos hmem]
  · intro s p t hinv hmem
    exact (add_media_catalog env fuel s p t hinv (benign_env_catalog env hben _)).2 hmem
  · intro adds s hinv
    exact (add_media_seq_catalog env fuel hben adds s hinv).1
  · intro adds s hinv hnd
    rw [(add_media_seq_catalog env fuel hben adds s hinv).1]
    exact catalog_after_adds_nodup adds s.media_files hnd

/-- C9, witness: re-adding a known path is a no-op, and a discovery sequence
with a duplicate produces the duplicate-free, insertion-ordered catalog. -/
theorem C9_add_media_idempotent_witness :
    (add_media allGoodEnv 1 threeImageState "b.jpg" MediaType.image).1 =
      threeImageState ∧
    (add_media_seq allGoodEnv 1
      [("n.jpg", MediaType.image), ("a.jpg", MediaType.image), ("w.mp4", MediaType.video)]
      threeImageState).media_files =
      catalog_after_adds threeImageState.media_files
        [("n.jpg", MediaType.image), ("a.jpg", MediaType.image), ("w.mp4", MediaType.video)] := by
  have hben : benign_env allGoodEnv :=
    fun _ => ⟨⟨rfl, fun _ => Or.inr rfl⟩, ⟨rfl, fun _ => Or.inr rfl⟩⟩
  exact ⟨(C9_add_media_idempotent allGoodEnv 1 hben).1 threeImageState "b.jpg"
      MediaType.image (by decide),
    (C9_add_media_idempotent allGoodEnv 1 hben).2.2.1
      [("n.jpg", MediaType.image), ("a.jpg", MediaType.image), ("w.mp4", MediaType.video)]
      threeImageState (by decide)⟩

/-- C10, counterexample: one call to `show_current_media` on the `staleState`
catalog (missing image, unopenable video, missing image, good image) removes
two items, because a video that fails to open re-enters `next_media` inside
the same call. -/
theorem C10_counterexample :
    staleState.media_files.length = 4 ∧
    (show_current_media staleEnv 3 staleState).1.media_files =
      [("v", MediaType.video), ("z", MediaType.image)] := by decide

/-- C10, amended: the straight-line path removes exactly one item: after the
missing current item is popped, the replacement at the reduced index is not
re-checked for existence, so a second consecutive missing image is handed to
the display path rather than removed; only the `next_media` recursion of an
unopenable video can remove more within one call. -/
theorem C10_single_removal_no_recheck (env : Env) (fuel : Nat) (s : SlideState)
    (p q : String) (t : MediaType)
    (hidx : s.current_media_index < s.media_files.length)
    (hitem : s.media_files.get ⟨s.current_media_index, hidx⟩ = (p, t))
    (hmiss : env.file_exists p = false)
    (hb : (s.media_files.eraseIdx s.current_media_index).length ≠ 0)
    (hq : (s.media_files.eraseIdx s.current_media_index).get
        ⟨s.current_media_index % (s.media_files.eraseIdx s.current_media_index).length,
          Nat.mod_lt _ (Nat.pos_of_ne_zero hb)⟩ = (q, MediaType.image))
    (hmiss2 : env.file_exists q = false) :
    (show_current_media env (fuel + 1) s).1.media_files =
      s.media_files.eraseIdx s.current_media_index ∧
    (show_current_media env (fuel + 1) s).1.current_media_index =
      s.current_media_index % (s.media_files.eraseIdx s.current_media_index).length := by
  rw [show_current_media_missing_step env fuel s hidx (by rw [hitem]; exact hmiss) hb]
  have h := show_existing_media_frame env
    (next_media_cont (show_current_media env fuel))
    { s with
      media_files := s.media_files.eraseIdx s.current_media_index,
      current_media_index := s.current_media_index %
        (s.media_files.eraseIdx s.current_media_index).length }
    ((s.media_files.eraseIdx s.current_media_index).get
      ⟨s.current_media_index % (s.media_files.eraseIdx s.current_media_index).length,
        Nat.mod_lt _ (Nat.pos_of_ne_zero hb)⟩).1
    ((s.media_files.eraseIdx s.current_media_index).get
      ⟨s.current_media_index % (s.media_files.eraseIdx s.current_media_index).length,
        Nat.mod_lt _ (Nat.pos_of_ne_zero hb)⟩).2
    (by rw [hq]; exact fun hv => nomatch hv)
  exact ⟨h.1, h.2.1⟩

/-- C10, witness: current item missing, replacement a missing image — exactly
one removal, the missing replacement is selected, not removed. -/
theorem C10_single_removal_no_recheck_witness :
    (show_current_media missingEnv 1 threeImageState).1.media_files =
      threeImageState.media_files.eraseIdx threeImageState.current_media_index ∧
    (show_current_media missingEnv 1 threeImageState).1.current_media_index =
      threeImageState.current_media_index %
        (threeImageState.media_files.eraseIdx threeImageState.current_media_index).length :=
  C10_single_removal_no_recheck missingEnv 0 threeImageState "b.jpg" "c.jpg"
    MediaType.image (by decide) (by decide) (by decide) (by decide) (by decide) (by decide)
